import Mathlib

/-!
Shallow embedding of the lumos backend hybrid-retrieval core:
the search tools in app/agents/tools.py, the timeline query in
app/database/neo4jclient.py, and the chat turn in app/api/chat.py
over the models in app/models/database.py and app/models/responses.py.
-/

namespace Lumos

/-- JSON-like values stored in the metadata maps of the backend models. -/
inductive MetaValue where
  | null : MetaValue
  | str : String → MetaValue
  | nat : Nat → MetaValue
  | strList : List String → MetaValue
  deriving DecidableEq, Repr

/-- Python dict as an insertion-ordered association list. -/
abbrev Metadata := List (String × MetaValue)

/-- Python dict assignment `d[k] = v`: replace in place when the key exists,
otherwise append at the end (insertion order preserved). -/
def setKey : Metadata → String → MetaValue → Metadata
  | [], k, v => [(k, v)]
  | (k0, v0) :: rest, k, v =>
      if k0 = k then (k, v) :: rest else (k0, v0) :: setKey rest k v

/-- Python dict lookup `d.get(k)`. -/
def lookupKey : Metadata → String → Option MetaValue
  | [], _ => none
  | (k0, v0) :: rest, k => if k0 = k then some v0 else lookupKey rest k

/-- ChunkResult model from app/models/responses.py (score is carried opaquely,
modelled as a rational). -/
structure ChunkResult where
  chunk_id : String
  document_id : String
  content : String
  score : Rat
  metadata : Metadata
  document_title : String
  document_source : String
  deriving DecidableEq, Repr

/-- GraphSearchResult model from app/models/responses.py. -/
structure GraphSearchResult where
  fact : String
  uuid : String
  valid_at : Option String
  invalid_at : Option String
  source_node_uuid : Option String
  deriving DecidableEq, Repr

/-- One row of the SQL query in vector_search_tool (tools.py lines 40 to 62). -/
structure VectorRow where
  chunk_id : String
  document_id : String
  content : String
  score : Rat
  metadata : Option Metadata
  document_title : String
  document_source : String
  deriving DecidableEq, Repr

/-- Row conversion loop of vector_search_tool (tools.py lines 64 to 74):
`row.metadata or {}` defaults a missing metadata to the empty dict. -/
def rowToChunk (r : VectorRow) : ChunkResult :=
  { chunk_id := r.chunk_id
    document_id := r.document_id
    content := r.content
    score := r.score
    metadata := r.metadata.getD []
    document_title := r.document_title
    document_source := r.document_source }

/-- vector_search_tool (tools.py lines 24 to 80): the awaited embedding and
database call is modelled by its resolved outcome `engine`; any raised
failure is caught by the surrounding `except` and yields the empty list. -/
def vector_search_tool (engine : Except String (List VectorRow)) :
    List ChunkResult :=
  match engine with
  | .error _ => []
  | .ok rows => rows.map rowToChunk

/-- Raw fact dictionary produced by GraphitiClient.search
(neo4jclient.py lines 161 to 170). -/
structure RawFact where
  fact : String
  uuid : String
  valid_at : Option String
  invalid_at : Option String
  source_node_uuid : Option String
  deriving DecidableEq, Repr

/-- graph_search_tool (tools.py lines 82 to 115): the awaited graph client
call is modelled by its resolved outcome; any raised failure is caught by
the surrounding `except` and yields the empty list. -/
def graph_search_tool (engine : Except String (List RawFact)) :
    List GraphSearchResult :=
  match engine with
  | .error _ => []
  | .ok rs =>
      rs.map (fun r =>
        { fact := r.fact
          uuid := r.uuid
          valid_at := r.valid_at
          invalid_at := r.invalid_at
          source_node_uuid := r.source_node_uuid })

/-- Python `str.lower()`, character by character, over the character list of
the string. -/
def toLowerList (l : List Char) : List Char := l.map Char.toLower

/-- Helper of splitWs: accumulates the current token in reverse. -/
def splitWsAux : List Char → List Char → List (List Char)
  | [], acc => if acc.isEmpty then [] else [acc.reverse]
  | c :: cs, acc =>
      if c.isWhitespace then
        if acc.isEmpty then splitWsAux cs [] else acc.reverse :: splitWsAux cs []
      else splitWsAux cs (c :: acc)

/-- Python `str.split()` with no argument: split on whitespace runs, with no
empty tokens. -/
def splitWs (l : List Char) : List (List Char) := splitWsAux l []

/-- Python `query.lower().split()` (tools.py line 144). -/
def queryTokens (q : String) : List (List Char) :=
  splitWs (toLowerList q.toList)

/-- Python substring test `needle in hay`. -/
def containsSub (hay needle : List Char) : Bool :=
  decide (needle <:+: hay)

/-- The per-fact match test of hybrid_search_tool (tools.py lines 143 to 144):
`any(keyword in gr.fact.lower() for keyword in input_data.query.lower().split())`. -/
def factMatches (q : String) (fact : String) : Bool :=
  (queryTokens q).any (fun kw => containsSub (toLowerList fact.toList) kw)

/-- The `relevant_facts` list comprehension of hybrid_search_tool
(tools.py lines 141 to 145), before truncation. -/
def relevantFacts (q : String) (graphResults : List GraphSearchResult) :
    List String :=
  (graphResults.filter (fun gr => factMatches q gr.fact)).map (fun gr => gr.fact)

/-- Body of the enrichment loop of hybrid_search_tool
(tools.py lines 139 to 148): when any fact matches, store the first three
matching facts under the metadata key graph_context, otherwise leave the
chunk untouched. -/
def fuseChunk (q : String) (graphResults : List GraphSearchResult)
    (c : ChunkResult) : ChunkResult :=
  let relevant_facts := relevantFacts q graphResults
  if relevant_facts = [] then c
  else
    { c with
      metadata :=
        setKey c.metadata "graph_context" (.strList (relevant_facts.take 3)) }

/-- hybrid_search_tool (tools.py lines 117 to 154): awaits the vector search,
then the graph search, then runs the enrichment loop over the vector results
and returns them. -/
def hybrid_search_tool (q : String)
    (vectorEngine : Except String (List VectorRow))
    (graphEngine : Except String (List RawFact)) : List ChunkResult :=
  let vector_results := vector_search_tool vectorEngine
  let graph_results := graph_search_tool graphEngine
  vector_results.map (fuseChunk q graph_results)

/-- The identity of a chunk apart from its metadata map. -/
def chunkCore (c : ChunkResult) : String × String × String × Rat × String × String :=
  (c.chunk_id, c.document_id, c.content, c.score, c.document_title,
    c.document_source)

/-- Timeline dictionary built by GraphitiClient.get_entity_timeline
(neo4jclient.py lines 252 to 259). -/
structure TimelineEntry where
  fact : String
  uuid : String
  valid_at : Option String
  invalid_at : Option String
  deriving DecidableEq, Repr

/-- Fallback key used by the sort in get_entity_timeline
(neo4jclient.py line 263). -/
def timelineSentinel : String := "1900-01-01T00:00:00Z"

/-- Sort key of get_entity_timeline, as the character list compared
lexicographically by code point, which is how Python compares the key
strings: `x.get(valid_at) or the sentinel`; a missing or empty
valid_at falls back to the sentinel string. -/
def timelineKey (e : TimelineEntry) : List Char :=
  (match e.valid_at with
   | none => timelineSentinel
   | some s => if s = "" then timelineSentinel else s).toList

/-- Ordering relation of the timeline sort: entry a may precede entry b when
the key of b is at most the key of a (descending lexicographic order). -/
def keyGE (a b : TimelineEntry) : Prop := timelineKey b ≤ timelineKey a

instance : DecidableRel keyGE :=
  fun a b => inferInstanceAs (Decidable (timelineKey b ≤ timelineKey a))

instance : IsTotal TimelineEntry keyGE := ⟨fun _ _ => le_total _ _⟩

instance : IsTrans TimelineEntry keyGE :=
  ⟨fun _ _ _ h1 h2 => le_trans h2 h1⟩

/-- Python `timeline.sort(key=..., reverse=True)` is a stable descending sort
by the key; modelled by stable insertion sort with the same ordering. -/
def sortTimeline (l : List TimelineEntry) : List TimelineEntry :=
  List.insertionSort keyGE l

/-- Projection of a raw graph result to the timeline dictionary
(neo4jclient.py lines 253 to 259). -/
def toTimelineEntry (r : RawFact) : TimelineEntry :=
  { fact := r.fact
    uuid := r.uuid
    valid_at := r.valid_at
    invalid_at := r.invalid_at }

/-- GraphitiClient.get_entity_timeline (neo4jclient.py lines 224 to 271):
the awaited graph search is modelled by its resolved outcome; results are
converted and sorted; any raised failure is caught and yields the empty
list. -/
def get_entity_timeline (engine : Except String (List RawFact)) :
    List TimelineEntry :=
  match engine with
  | .error _ => []
  | .ok results => sortTimeline (results.map toTimelineEntry)

/-- A tool-call record extracted from the agent result and stored in
tools_used (chat.py lines 110 to 119). -/
structure ToolRec where
  tool_name : String
  args : Metadata
  tool_call_id : Option String
  execution_time_ms : Option Nat
  deriving DecidableEq, Repr

/-- Row of agent_conversations (models/database.py lines 67 to 80):
created_at and last_activity take the server default (insert time). -/
structure ConversationRow where
  id : Nat
  session_id : String
  user_id : Option String
  created_at : Nat
  last_activity : Nat
  metadata : Metadata
  deriving DecidableEq, Repr

/-- Row of agent_messages (models/database.py lines 82 to 96). -/
structure MessageRow where
  id : Nat
  conversation_id : Nat
  role : String
  content : String
  tools_used : List ToolRec
  metadata : Metadata
  created_at : Nat
  deriving DecidableEq, Repr

/-- Row of tool_usage (models/database.py lines 98 to 112). -/
structure ToolUsageRow where
  id : Nat
  message_id : Nat
  tool_name : String
  tool_args : Metadata
  execution_time_ms : Option Nat
  success : Bool
  deriving DecidableEq, Repr

/-- The relational state touched by the chat turn, with a primary-key
counter standing for uuid generation. -/
structure DB where
  conversations : List ConversationRow
  messages : List MessageRow
  tool_usage : List ToolUsageRow
  nextId : Nat
  deriving DecidableEq, Repr

/-- A SQLAlchemy session: `durable` is the committed state, `working` the
state including flushed but uncommitted writes. commit publishes `working`;
rollback discards it. -/
structure Txn where
  durable : DB
  working : DB
  deriving DecidableEq, Repr

/-- The lookup `select(AgentConversation).where(session_id == sid)` used by
get_or_create_session and save_message (chat.py lines 44 to 47, 93 to 96). -/
def findConversation (db : DB) (sid : String) : Option ConversationRow :=
  db.conversations.find? (fun c => c.session_id = sid)

/-- Insert of a new AgentConversation (chat.py lines 50 to 57): server
defaults set created_at and last_activity to the insert time. -/
def DB.insertConversation (db : DB) (now : Nat) (sid : String)
    (uid : Option String) (md : Metadata) : DB :=
  { db with
    conversations := db.conversations ++
      [{ id := db.nextId
         session_id := sid
         user_id := uid
         created_at := now
         last_activity := now
         metadata := md }]
    nextId := db.nextId + 1 }

/-- Insert of an AgentMessage (chat.py lines 98 to 107); returns the flushed
primary key. -/
def DB.insertMessage (db : DB) (now : Nat) (convId : Nat) (role content : String)
    (tools : List ToolRec) (md : Metadata) : DB × Nat :=
  ({ db with
     messages := db.messages ++
       [{ id := db.nextId
          conversation_id := convId
          role := role
          content := content
          tools_used := tools
          metadata := md
          created_at := now }]
     nextId := db.nextId + 1 }, db.nextId)

/-- Insert of a ToolUsage row (chat.py lines 112 to 119): success is always
recorded as true. -/
def DB.insertToolUsage (db : DB) (mid : Nat) (t : ToolRec) : DB :=
  { db with
    tool_usage := db.tool_usage ++
      [{ id := db.nextId
         message_id := mid
         tool_name := t.tool_name
         tool_args := t.args
         execution_time_ms := t.execution_time_ms
         success := true }]
    nextId := db.nextId + 1 }

/-- Session-id resolution of get_or_create_session (chat.py lines 38 to 41):
`if not session_id` treats both an absent and an empty id as missing and
substitutes a freshly generated uuid. -/
def resolveSessionId (requested : Option String) (freshId : String) : String :=
  match requested with
  | none => freshId
  | some s => if s = "" then freshId else s

/-- get_or_create_session (chat.py lines 32 to 59), acting on the working
state of the transaction. -/
def get_or_create_session (db : DB) (now : Nat) (requested : Option String)
    (freshId : String) (uid : Option String) (md : Metadata) : DB × String :=
  match findConversation db (resolveSessionId requested freshId) with
  | some _ => (db, resolveSessionId requested freshId)
  | none =>
      (db.insertConversation now (resolveSessionId requested freshId) uid md,
        resolveSessionId requested freshId)

/-- save_message (chat.py lines 83 to 121): `scalar_one()` raises when the
conversation is missing; the message is flushed and, when tools_used is
non-empty, one ToolUsage row is flushed per entry. -/
def save_message (db : DB) (now : Nat) (sid role content : String)
    (tools : List ToolRec) (md : Metadata) : Except String DB :=
  match findConversation db sid with
  | none => .error "NoResultFound"
  | some conv =>
      let inserted := db.insertMessage now conv.id role content tools md
      .ok (tools.foldl (fun d t => d.insertToolUsage inserted.2 t) inserted.1)

/-- The ChatRequest fields consumed by the chat endpoint (chat.py). -/
structure ChatRequest where
  session_id : Option String
  message : String
  search_type : String
  metadata : Metadata
  deriving DecidableEq, Repr

/-- The agent layer result consumed by the chat endpoint: final text plus
the extracted tool calls. -/
structure ChatAgentResult where
  data : String
  tools : List ToolRec
  deriving DecidableEq, Repr

/-- Metadata stored with the user message (chat.py line 158). -/
def userMeta (user : Option String) : Metadata :=
  [("user_id", match user with | some u => .str u | none => .null)]

/-- Prefix of the chat endpoint up to and including the flush of the user
message (chat.py lines 131 to 160): resolve or create the session, then
save the incoming user message, all inside the open transaction. -/
def chatUserSaved (db0 : DB) (now : Nat) (freshId : String)
    (user : Option String) (req : ChatRequest) : Except String (DB × String) :=
  match save_message
      (get_or_create_session db0 now req.session_id freshId user req.metadata).1
      now
      (get_or_create_session db0 now req.session_id freshId user req.metadata).2
      "user" req.message [] (userMeta user) with
  | .error e => .error e
  | .ok w2 =>
      .ok (w2,
        (get_or_create_session db0 now req.session_id freshId user
          req.metadata).2)

/-- The chat endpoint (chat.py lines 123 to 199): the awaited agent run is
modelled by its resolved outcome. On success the assistant message is saved
and the transaction committed; any raised failure reaches the except
handler, which rolls the transaction back, discarding every uncommitted
write of the turn. Returns the final transaction and the response text or
the error detail. -/
def chat (db0 : DB) (now : Nat) (freshId : String) (user : Option String)
    (req : ChatRequest) (agent : Except String ChatAgentResult) :
    Txn × Except String String :=
  match chatUserSaved db0 now freshId user req with
  | .error e => (⟨db0, db0⟩, .error e)
  | .ok (w2, sid) =>
      match agent with
      | .error e => (⟨db0, db0⟩, .error e)
      | .ok r =>
          match save_message w2 now sid "assistant" r.data r.tools
              [("search_type", .str req.search_type)] with
          | .error e => (⟨db0, db0⟩, .error e)
          | .ok w3 => (⟨w3, w3⟩, .ok r.data)

/-- Engine interaction events of one hybrid search, used to state the
sequencing of the two engine calls. -/
inductive EngineEvent where
  | vectorCall
  | vectorReturn
  | graphCall
  | graphReturn
  | fusionRun
  deriving DecidableEq, BEq, Repr

/-- Engine trace of vector_search_tool: one awaited engine call. -/
def vector_search_events : List EngineEvent := [.vectorCall, .vectorReturn]

/-- Engine trace of graph_search_tool: one awaited engine call. -/
def graph_search_events : List EngineEvent := [.graphCall, .graphReturn]

/-- Engine trace of hybrid_search_tool (tools.py lines 127 to 150): the
vector search is awaited to completion, then the graph search is awaited,
then the enrichment loop runs. -/
def hybrid_search_events : List EngineEvent :=
  vector_search_events ++ graph_search_events ++ [.fusionRun]

/-! ### Concrete sample data used by counterexamples and witnesses -/

/-- Graph fact of spec scenario B. -/
def acmeRaw : RawFact :=
  { fact := "Acme signed a partnership with Globex in 2021"
    uuid := "f1"
    valid_at := some "2021-05-01T00:00:00Z"
    invalid_at := none
    source_node_uuid := none }

/-- Vector row with unrelated content, as in spec scenario B. -/
def rowB : VectorRow :=
  { chunk_id := "c1"
    document_id := "d1"
    content := "unrelated text"
    score := 1
    metadata := none
    document_title := "t"
    document_source := "slack_message" }

/-- Query of spec scenario B. -/
def qB : String := "partnership between Acme and Globex"

/-- Timeline entry with a missing valid_at. -/
def nullRaw : RawFact :=
  { fact := "Founding fact"
    uuid := "u1"
    valid_at := none
    invalid_at := none
    source_node_uuid := none }

/-- Timeline entry dated before the 1900 sentinel. -/
def oldRaw : RawFact :=
  { fact := "Ancient fact"
    uuid := "u2"
    valid_at := some "1850-01-01T00:00:00Z"
    invalid_at := none
    source_node_uuid := none }

/-- Timeline entry dated 2023, as in spec scenario C. -/
def raw2023 : RawFact :=
  { fact := "Fact of 2023"
    uuid := "u3"
    valid_at := some "2023-01-01"
    invalid_at := none
    source_node_uuid := none }

/-- Timeline entry dated 2022, as in spec scenario C. -/
def raw2022 : RawFact :=
  { fact := "Fact of 2022"
    uuid := "u4"
    valid_at := some "2022-06-01"
    invalid_at := none
    source_node_uuid := none }

/-- A pre-existing conversation row. -/
def convRow1 : ConversationRow :=
  { id := 0
    session_id := "s1"
    user_id := none
    created_at := 1
    last_activity := 1
    metadata := [] }

/-- A database holding one conversation and no messages. -/
def db1 : DB :=
  { conversations := [convRow1]
    messages := []
    tool_usage := []
    nextId := 1 }

/-- The empty database. -/
def emptyDB : DB :=
  { conversations := []
    messages := []
    tool_usage := []
    nextId := 0 }

/-- A chat request addressed to the existing session s1. -/
def reqS1 : ChatRequest :=
  { session_id := some "s1"
    message := "hello"
    search_type := "hybrid"
    metadata := [] }

/-- A successful agent outcome with one recorded tool call. -/
def agentR1 : ChatAgentResult :=
  { data := "hi"
    tools := [{ tool_name := "vector_search"
                args := []
                tool_call_id := none
                execution_time_ms := none }] }

/-! ### Helper lemmas -/

/-- Updating a key and then reading it back yields the stored value. -/
theorem lookupKey_setKey (m : Metadata) (k : String) (v : MetaValue) :
    lookupKey (setKey m k v) k = some v := by
  induction m with
  | nil => simp [setKey, lookupKey]
  | cons kv t ih =>
      obtain ⟨k0, v0⟩ := kv
      by_cases hk : k0 = k
      · simp [setKey, lookupKey, hk]
      · simp [setKey, lookupKey, hk, ih]

/-- Fusion never changes any field of a chunk other than its metadata. -/
theorem chunkCore_fuseChunk (q : String) (g : List GraphSearchResult)
    (c : ChunkResult) : chunkCore (fuseChunk q g c) = chunkCore c := by
  unfold fuseChunk
  by_cases h : relevantFacts q g = [] <;> simp [h, chunkCore]

/-- With no matching fact, fusion returns the chunk untouched. -/
theorem fuseChunk_of_no_match (q : String) (g : List GraphSearchResult)
    (c : ChunkResult) (h : relevantFacts q g = []) : fuseChunk q g c = c := by
  simp [fuseChunk, h]

/-- With a matching fact, fusion stores the first three matching facts under
the graph_context key. -/
theorem fuseChunk_metadata_of_match (q : String) (g : List GraphSearchResult)
    (c : ChunkResult) (h : ¬ relevantFacts q g = []) :
    (fuseChunk q g c).metadata =
      setKey c.metadata "graph_context" (.strList ((relevantFacts q g).take 3)) := by
  simp [fuseChunk, h]

/-! ### Claim theorems -/

/-- C1: for every HYBRID search, the returned chunk list has exactly the
length and order of the list produced by the vector search step; fusion
only ever touches the metadata, where it may add the graph_context
annotation. -/
theorem hybrid_preserves_vector_chunks (q : String)
    (vE : Except String (List VectorRow)) (gE : Except String (List RawFact)) :
    (hybrid_search_tool q vE gE).length = (vector_search_tool vE).length ∧
    (hybrid_search_tool q vE gE).map chunkCore =
      (vector_search_tool vE).map chunkCore ∧
    ∀ c : ChunkResult,
      (fuseChunk q (graph_search_tool gE) c).metadata = c.metadata ∨
      (fuseChunk q (graph_search_tool gE) c).metadata =
        setKey c.metadata "graph_context"
          (.strList ((relevantFacts q (graph_search_tool gE)).take 3)) := by
  refine ⟨by simp [hybrid_search_tool], ?_, ?_⟩
  · show ((vector_search_tool vE).map (fuseChunk q (graph_search_tool gE))).map
        chunkCore = _
    rw [List.map_map]
    exact List.map_congr_left
      (fun c _ => chunkCore_fuseChunk q (graph_search_tool gE) c)
  · intro c
    by_cases h : relevantFacts q (graph_search_tool gE) = []
    · exact Or.inl (by rw [fuseChunk_of_no_match q _ c h])
    · exact Or.inr (fuseChunk_metadata_of_match q _ c h)

/-- C5: a failure raised by the vector engine or by the graph engine is
absorbed by the corresponding tool, which returns the empty list instead of
propagating the failure. -/
theorem search_degrades_to_empty_on_engine_failure (e1 e2 : String) :
    vector_search_tool (.error e1) = [] ∧ graph_search_tool (.error e2) = [] :=
  ⟨rfl, rfl⟩

/-- C6 counterexample: with an empty vector result and a non-empty graph
result, the hybrid search returns the empty list, so the graph facts are
not returned standalone. -/
theorem hybrid_drops_graph_when_vector_empty_cex :
    graph_search_tool (.ok [acmeRaw]) ≠ [] ∧
    hybrid_search_tool qB (.ok []) (.ok [acmeRaw]) = [] := by
  exact ⟨by decide, rfl⟩

/-- C6 amended: when the vector engine returns no chunks (or fails), the
HYBRID search returns the empty list; graph facts are never returned
standalone by hybrid_search_tool. -/
theorem hybrid_returns_empty_on_empty_vector (q : String)
    (gE : Except String (List RawFact)) (e : String) :
    hybrid_search_tool q (.ok []) gE = [] ∧
    hybrid_search_tool q (.error e) gE = [] :=
  ⟨rfl, rfl⟩

/-- C9 counterexample: in the engine trace of a hybrid search the vector
call returns strictly before the graph call is issued, so the two engine
calls are not in flight concurrently. -/
theorem hybrid_calls_not_concurrent_cex :
    hybrid_search_events.indexOf EngineEvent.vectorReturn <
      hybrid_search_events.indexOf EngineEvent.graphCall ∧
    ¬ (hybrid_search_events.indexOf EngineEvent.graphCall <
        hybrid_search_events.indexOf EngineEvent.vectorReturn) := by
  decide

/-- C9 amended: in HYBRID mode the vector engine call is issued and awaited
to completion before the graph engine call is issued, and fusion runs only
after both calls have completed, in this strict sequential order. -/
theorem hybrid_engine_calls_sequential :
    hybrid_search_events =
      [EngineEvent.vectorCall, EngineEvent.vectorReturn, EngineEvent.graphCall,
        EngineEvent.graphReturn, EngineEvent.fusionRun] ∧
    hybrid_search_events.indexOf EngineEvent.vectorCall <
      hybrid_search_events.indexOf EngineEvent.vectorReturn ∧
    hybrid_search_events.indexOf EngineEvent.vectorReturn <
      hybrid_search_events.indexOf EngineEvent.graphCall ∧
    hybrid_search_events.indexOf EngineEvent.graphCall <
      hybrid_search_events.indexOf EngineEvent.graphReturn ∧
    hybrid_search_events.indexOf EngineEvent.graphReturn <
      hybrid_search_events.indexOf EngineEvent.fusionRun := by
  decide

/-- With no matching fact, the hybrid output is the vector output unchanged. -/
theorem hybrid_out_of_no_match (q : String)
    (vE : Except String (List VectorRow)) (gE : Except String (List RawFact))
    (h : relevantFacts q (graph_search_tool gE) = []) :
    hybrid_search_tool q vE gE = vector_search_tool vE := by
  show ((vector_search_tool vE).map (fuseChunk q (graph_search_tool gE))) = _
  rw [List.map_congr_left
    (fun c _ => fuseChunk_of_no_match q (graph_search_tool gE) c h)]
  exact List.map_id _

/-- With a matching fact, every chunk of the hybrid output carries the first
three matching facts as its graph_context. -/
theorem hybrid_lookup_of_match (q : String)
    (vE : Except String (List VectorRow)) (gE : Except String (List RawFact))
    (h : relevantFacts q (graph_search_tool gE) ≠ []) :
    ∀ c ∈ hybrid_search_tool q vE gE,
      lookupKey c.metadata "graph_context" =
        some (.strList ((relevantFacts q (graph_search_tool gE)).take 3)) := by
  intro c hc
  obtain ⟨c0, _, rfl⟩ := List.mem_map.1 hc
  rw [fuseChunk_metadata_of_match q _ c0 h, lookupKey_setKey]

/-- C2: in every HYBRID search the graph_context annotation holds at most 3
facts, each matching at least one lowercase whitespace-separated query token
as a substring of its lowercased text; the facts keep the order in which
the graph engine returned them; and when no fact matches, every chunk is
returned untouched, so no graph_context annotation is attached. -/
theorem hybrid_graph_context_spec (q : String)
    (vE : Except String (List VectorRow)) (gE : Except String (List RawFact)) :
    ((relevantFacts q (graph_search_tool gE)).take 3).length ≤ 3 ∧
    (∀ f ∈ (relevantFacts q (graph_search_tool gE)).take 3,
        factMatches q f = true) ∧
    ((relevantFacts q (graph_search_tool gE)).take 3).Sublist
      ((graph_search_tool gE).map GraphSearchResult.fact) ∧
    (relevantFacts q (graph_search_tool gE) = [] →
        hybrid_search_tool q vE gE = vector_search_tool vE) ∧
    (relevantFacts q (graph_search_tool gE) ≠ [] →
        ∀ c ∈ hybrid_search_tool q vE gE,
          lookupKey c.metadata "graph_context" =
            some (.strList ((relevantFacts q (graph_search_tool gE)).take 3))) := by
  refine ⟨List.length_take_le 3 _, ?_, ?_, hybrid_out_of_no_match q vE gE,
    hybrid_lookup_of_match q vE gE⟩
  · intro f hf
    have hf2 : f ∈ relevantFacts q (graph_search_tool gE) :=
      (List.take_sublist 3 _).subset hf
    unfold relevantFacts at hf2
    obtain ⟨gr, hgr, rfl⟩ := List.mem_map.1 hf2
    exact (List.mem_filter.1 hgr).2
  · exact (List.take_sublist 3 _).trans
      (List.Sublist.map GraphSearchResult.fact (List.filter_sublist _))

/-- C2 witness: concrete hybrid search where one graph fact matches the
query; every returned chunk carries that single fact as graph_context. -/
theorem hybrid_graph_context_spec_witness :
    relevantFacts qB (graph_search_tool (.ok [acmeRaw])) ≠ [] ∧
    (∀ c ∈ hybrid_search_tool qB (.ok [rowB]) (.ok [acmeRaw]),
      lookupKey c.metadata "graph_context" =
        some (.strList ["Acme signed a partnership with Globex in 2021"])) ∧
    relevantFacts "zzz" (graph_search_tool (.ok [acmeRaw])) = [] ∧
    hybrid_search_tool "zzz" (.ok [rowB]) (.ok [acmeRaw]) =
      vector_search_tool (.ok [rowB]) := by
  have hne : relevantFacts qB (graph_search_tool (.ok [acmeRaw])) ≠ [] := by decide
  have hz : relevantFacts "zzz" (graph_search_tool (.ok [acmeRaw])) = [] := by
    decide
  refine ⟨hne, ?_, hz,
    (hybrid_graph_context_spec "zzz" (.ok [rowB]) (.ok [acmeRaw])).2.2.2.1 hz⟩
  have h :=
    (hybrid_graph_context_spec qB (.ok [rowB]) (.ok [acmeRaw])).2.2.2.2 hne
  have he : (relevantFacts qB (graph_search_tool (.ok [acmeRaw]))).take 3 =
      ["Acme signed a partnership with Globex in 2021"] := by decide
  rw [he] at h
  exact h

/-- C10: the fact-matching step of fusion depends only on the query and the
graph results, never on the chunk: when no fact matches, every chunk is
returned untouched; when some fact matches, every returned chunk carries
the same graph_context value, so any two returned chunks agree on it. -/
theorem hybrid_graph_context_uniform (q : String)
    (vE : Except String (List VectorRow)) (gE : Except String (List RawFact)) :
    (relevantFacts q (graph_search_tool gE) = [] →
        hybrid_search_tool q vE gE = vector_search_tool vE) ∧
    (relevantFacts q (graph_search_tool gE) ≠ [] →
        ∀ c1 ∈ hybrid_search_tool q vE gE, ∀ c2 ∈ hybrid_search_tool q vE gE,
          lookupKey c1.metadata "graph_context" =
              some (.strList ((relevantFacts q (graph_search_tool gE)).take 3)) ∧
            lookupKey c1.metadata "graph_context" =
              lookupKey c2.metadata "graph_context") := by
  refine ⟨hybrid_out_of_no_match q vE gE, ?_⟩
  intro h c1 hc1 c2 hc2
  have h1 := hybrid_lookup_of_match q vE gE h c1 hc1
  have h2 := hybrid_lookup_of_match q vE gE h c2 hc2
  exact ⟨h1, h1.trans h2.symm⟩

/-- C10 witness: concrete hybrid search with two chunks; both receive the
identical graph_context value. -/
theorem hybrid_graph_context_uniform_witness :
    relevantFacts "globex" (graph_search_tool (.ok [acmeRaw])) ≠ [] ∧
    (∀ c1 ∈ hybrid_search_tool "globex" (.ok [rowB, rowB]) (.ok [acmeRaw]),
      ∀ c2 ∈ hybrid_search_tool "globex" (.ok [rowB, rowB]) (.ok [acmeRaw]),
        lookupKey c1.metadata "graph_context" =
          lookupKey c2.metadata "graph_context") ∧
    relevantFacts "qqq" (graph_search_tool (.ok [acmeRaw])) = [] ∧
    hybrid_search_tool "qqq" (.ok [rowB, rowB]) (.ok [acmeRaw]) =
      vector_search_tool (.ok [rowB, rowB]) := by
  have hne : relevantFacts "globex" (graph_search_tool (.ok [acmeRaw])) ≠ [] := by
    decide
  have hq : relevantFacts "qqq" (graph_search_tool (.ok [acmeRaw])) = [] := by
    decide
  refine ⟨hne, ?_, hq,
    (hybrid_graph_context_uniform "qqq" (.ok [rowB, rowB]) (.ok [acmeRaw])).1 hq⟩
  intro c1 hc1 c2 hc2
  exact ((hybrid_graph_context_uniform "globex" (.ok [rowB, rowB])
    (.ok [acmeRaw])).2 hne c1 hc1 c2 hc2).2

/-- C4 counterexample: a fact whose valid_at predates the 1900 sentinel
sorts after a fact with missing valid_at, so missing valid_at is not
treated as the minimum possible timestamp and does not always sort last. -/
theorem timeline_missing_not_minimum_cex :
    get_entity_timeline (.ok [oldRaw, nullRaw]) =
      [toTimelineEntry nullRaw, toTimelineEntry oldRaw] ∧
    (toTimelineEntry nullRaw).valid_at = none ∧
    (toTimelineEntry oldRaw).valid_at = some "1850-01-01T00:00:00Z" := by
  decide

/-- C4 amended: the timeline operation returns the input facts stably sorted
in non-increasing lexicographic order of their valid_at string, with a
missing (or empty) valid_at replaced by the fixed sentinel
1900-01-01T00:00:00Z rather than by the minimum possible timestamp, so
missing-valid_at facts sort after facts dated later than the sentinel but
before facts dated earlier; on the spec example the order
[null, 2023-01-01, 2022-06-01] to [2023-01-01, 2022-06-01, null] still
holds, and an engine failure yields the empty timeline. -/
theorem timeline_sorted_by_sentinel_key (l : List RawFact) (e : String) :
    (get_entity_timeline (.ok l)).Perm (l.map toTimelineEntry) ∧
    (get_entity_timeline (.ok l)).Sorted keyGE ∧
    get_entity_timeline (.error e) = [] ∧
    get_entity_timeline (.ok [nullRaw, raw2023, raw2022]) =
      [toTimelineEntry raw2023, toTimelineEntry raw2022,
        toTimelineEntry nullRaw] := by
  refine ⟨List.perm_insertionSort keyGE _, List.sorted_insertionSort keyGE _,
    rfl, by decide⟩

/-- After get_or_create_session, the session lookup always succeeds. -/
theorem findConversation_get_or_create (db : DB) (now : Nat)
    (requested : Option String) (freshId : String) (uid : Option String)
    (md : Metadata) :
    ∃ c, findConversation
        (get_or_create_session db now requested freshId uid md).1
        (get_or_create_session db now requested freshId uid md).2 = some c := by
  unfold get_or_create_session
  cases h : findConversation db (resolveSessionId requested freshId) with
  | some c => exact ⟨c, by simp [h]⟩
  | none =>
      refine ⟨{ id := db.nextId
                session_id := resolveSessionId requested freshId
                user_id := uid
                created_at := now
                last_activity := now
                metadata := md }, ?_⟩
      simp only [h]
      unfold findConversation at h ⊢
      unfold DB.insertConversation
      rw [List.find?_append, h]
      simp [List.find?]

/-- insertToolUsage touches only the tool_usage table and the id counter. -/
theorem conversations_foldl_insertToolUsage (ts : List ToolRec) (db : DB)
    (mid : Nat) :
    (ts.foldl (fun d t => d.insertToolUsage mid t) db).conversations =
      db.conversations := by
  induction ts generalizing db with
  | nil => rfl
  | cons t ts ih => rw [List.foldl_cons, ih]; rfl

/-- insertToolUsage leaves the messages table unchanged. -/
theorem messages_foldl_insertToolUsage (ts : List ToolRec) (db : DB)
    (mid : Nat) :
    (ts.foldl (fun d t => d.insertToolUsage mid t) db).messages =
      db.messages := by
  induction ts generalizing db with
  | nil => rfl
  | cons t ts ih => rw [List.foldl_cons, ih]; rfl

/-- save_message on an existing conversation flushes the message row and one
tool-usage row per tool. -/
theorem save_message_of_found (db : DB) (now : Nat) (sid role content : String)
    (tools : List ToolRec) (md : Metadata) (c : ConversationRow)
    (h : findConversation db sid = some c) :
    save_message db now sid role content tools md =
      .ok (tools.foldl (fun d t => d.insertToolUsage db.nextId t)
        (db.insertMessage now c.id role content tools md).1) := by
  unfold save_message
  rw [h]
  rfl

/-- The user message is always flushed by the prefix of the chat turn, and
its row is the last message of the working state. -/
theorem chatUserSaved_ok (db0 : DB) (now : Nat) (freshId : String)
    (user : Option String) (req : ChatRequest) :
    ∃ w2 sid, chatUserSaved db0 now freshId user req = .ok (w2, sid) ∧
      ("user", req.message) ∈ w2.messages.map (fun m => (m.role, m.content)) := by
  obtain ⟨c, hc⟩ :=
    findConversation_get_or_create db0 now req.session_id freshId user
      req.metadata
  unfold chatUserSaved
  rw [save_message_of_found _ now _ "user" req.message [] (userMeta user) c hc]
  refine ⟨_, _, rfl, ?_⟩
  simp [DB.insertMessage]

/-- The working state committed by a successful chat turn on an existing
conversation: user message, assistant message, then one tool-usage row per
extracted tool call. -/
def committedTurn (db0 : DB) (now : Nat) (user : Option String)
    (req : ChatRequest) (r : ChatAgentResult) (convId : Nat) : DB :=
  let w2 := (db0.insertMessage now convId "user" req.message []
    (userMeta user)).1
  let w2a := w2.insertMessage now convId "assistant" r.data r.tools
    [("search_type", .str req.search_type)]
  r.tools.foldl (fun d t => d.insertToolUsage w2a.2 t) w2a.1

/-- On an existing conversation and a successful agent run, the chat turn
commits exactly the committedTurn state and returns the agent text. -/
theorem chat_ok_eq (db0 : DB) (now : Nat) (freshId : String)
    (user : Option String) (req : ChatRequest) (r : ChatAgentResult)
    (c : ConversationRow)
    (h : findConversation db0 (resolveSessionId req.session_id freshId) =
      some c) :
    chat db0 now freshId user req (.ok r) =
      (⟨committedTurn db0 now user req r c.id,
        committedTurn db0 now user req r c.id⟩, .ok r.data) := by
  have hg : get_or_create_session db0 now req.session_id freshId user
      req.metadata = (db0, resolveSessionId req.session_id freshId) := by
    unfold get_or_create_session
    rw [h]
  have hfind2 : findConversation
      (db0.insertMessage now c.id "user" req.message [] (userMeta user)).1
      (resolveSessionId req.session_id freshId) = some c := h
  simp only [chat, chatUserSaved, hg]
  rw [save_message_of_found db0 now (resolveSessionId req.session_id freshId)
    "user" req.message [] (userMeta user) c h]
  simp only [List.foldl_nil]
  rw [save_message_of_found _ now _ "assistant" r.data r.tools
    [("search_type", MetaValue.str req.search_type)] c hfind2]
  rfl

/-- C3 counterexample: a turn on an existing, empty session that fails
during the agent run leaves the durable database exactly as before the
turn, with no message at all: the user message was only flushed inside the
transaction and the rollback discarded it. -/
theorem chat_failed_turn_no_user_message_cex :
    (chat db1 5 "fresh-9" none reqS1 (.error "agent boom")).1.durable.messages
        = [] ∧
    (chat db1 5 "fresh-9" none reqS1 (.error "agent boom")).1.durable = db1 := by
  exact ⟨by decide, by decide⟩

/-- C3 amended: the incoming user Message is flushed to the open transaction
before the agent layer is invoked, but it is not durable: a turn that fails
during the agent run rolls back every write of the turn, including the user
Message, leaving the durable state unchanged. -/
theorem chat_user_message_flushed_not_durable (db0 : DB) (now : Nat)
    (freshId : String) (user : Option String) (req : ChatRequest) (e : String) :
    (chat db0 now freshId user req (.error e)).1.durable = db0 ∧
    (chat db0 now freshId user req (.error e)).1.working = db0 ∧
    ∃ w2 sid, chatUserSaved db0 now freshId user req = .ok (w2, sid) ∧
      ("user", req.message) ∈ w2.messages.map (fun m => (m.role, m.content)) := by
  obtain ⟨w2, sid, hok, hmem⟩ := chatUserSaved_ok db0 now freshId user req
  unfold chat
  rw [hok]
  exact ⟨rfl, rfl, w2, sid, rfl, hmem⟩

/-- C7 counterexample: a provided but unknown session_id creates the session
under the provided identifier, not under the freshly generated one. -/
theorem get_or_create_not_fresh_cex :
    (get_or_create_session emptyDB 0 (some "abc") "fresh-1" none []).2 =
      "abc" ∧
    ((get_or_create_session emptyDB 0 (some "abc") "fresh-1" none
        []).1.conversations.map (fun c => c.session_id)) = ["abc"] ∧
    ("abc" : String) ≠ "fresh-1" := by
  decide

/-- C7 amended: get_or_create_session is idempotent; a provided non-empty
session_id that exists is returned with the store unchanged; a missing
session_id resolves to the freshly generated identifier; a provided but
unknown session_id creates the session under the provided identifier, not a
fresh one; and a repeated call with the returned identifier changes
nothing. -/
theorem get_or_create_session_spec (db : DB) (now : Nat)
    (s freshId fresh2 : String) (uid : Option String) (md : Metadata) :
    (∀ c, s ≠ "" → findConversation db s = some c →
        get_or_create_session db now (some s) freshId uid md = (db, s)) ∧
    (s ≠ "" → findConversation db s = none →
        get_or_create_session db now (some s) freshId uid md =
          (db.insertConversation now s uid md, s)) ∧
    (get_or_create_session db now none freshId uid md).2 = freshId ∧
    (findConversation db freshId = none →
        get_or_create_session db now none freshId uid md =
          (db.insertConversation now freshId uid md, freshId)) ∧
    (∀ db2 sid2,
        get_or_create_session db now (some s) freshId uid md = (db2, sid2) →
        sid2 ≠ "" →
        get_or_create_session db2 now (some sid2) fresh2 uid md =
          (db2, sid2)) := by
  refine ⟨?_, ?_, ?_, ?_, ?_⟩
  · intro c hs hc
    unfold get_or_create_session
    simp [resolveSessionId, hs, hc]
  · intro hs hn
    unfold get_or_create_session
    simp [resolveSessionId, hs, hn]
  · unfold get_or_create_session
    cases h : findConversation db (resolveSessionId none freshId) <;>
      simp [resolveSessionId, h]
  · intro hn
    unfold get_or_create_session
    simp [resolveSessionId, hn]
  · intro db2 sid2 heq hne
    obtain ⟨c, hc⟩ :=
      findConversation_get_or_create db now (some s) freshId uid md
    rw [heq] at hc
    unfold get_or_create_session
    simp [resolveSessionId, hne, hc]

/-- C7 witness: on the empty store a provided unknown id abc with fresh id
fresh-1 creates the session under abc; a second call is a no-op. -/
theorem get_or_create_session_spec_witness :
    ("abc" : String) ≠ "" ∧
    findConversation emptyDB "abc" = none ∧
    get_or_create_session emptyDB 7 (some "abc") "fresh-1" none [] =
      (emptyDB.insertConversation 7 "abc" none [], "abc") ∧
    get_or_create_session (emptyDB.insertConversation 7 "abc" none []) 7
        (some "abc") "fresh-2" none [] =
      (emptyDB.insertConversation 7 "abc" none [], "abc") ∧
    get_or_create_session emptyDB 7 none "fresh-1" none [] =
      (emptyDB.insertConversation 7 "fresh-1" none [], "fresh-1") := by
  have hs : ("abc" : String) ≠ "" := by decide
  have hn : findConversation emptyDB "abc" = none := by decide
  have hnf : findConversation emptyDB "fresh-1" = none := by decide
  have h := get_or_create_session_spec emptyDB 7 "abc" "fresh-1" "fresh-2"
    none []
  have h1 := h.2.1 hs hn
  exact ⟨hs, hn, h1, h.2.2.2.2 _ _ h1 hs, h.2.2.2.1 hnf⟩

/-- C8 counterexample: a successful turn at time 42 commits its two messages
but leaves the conversation row, and so its last_activity value 1, exactly
as it was: last_activity is not updated on reaching the persisted state. -/
theorem chat_last_activity_not_updated_cex :
    (chat db1 42 "fresh-9" none reqS1
        (.ok agentR1)).1.durable.messages.length = 2 ∧
    (chat db1 42 "fresh-9" none reqS1 (.ok agentR1)).1.durable.conversations =
      [convRow1] ∧
    convRow1.last_activity = 1 ∧ (1 : Nat) ≠ 42 := by
  decide

/-- C8 amended: every turn that reaches the persisted state on an existing
session commits exactly one user Message and one assistant Message, but the
conversations table is left untouched, so the owning Session keeps its
previous last_activity value instead of having it updated. -/
theorem chat_persisted_two_messages_no_activity_update (db0 : DB) (now : Nat)
    (freshId : String) (user : Option String) (req : ChatRequest)
    (r : ChatAgentResult) (c : ConversationRow)
    (h : findConversation db0 (resolveSessionId req.session_id freshId) =
      some c) :
    ((chat db0 now freshId user req (.ok r)).1.durable.messages.map
        (fun m => (m.role, m.content)) =
      db0.messages.map (fun m => (m.role, m.content)) ++
        [("user", req.message), ("assistant", r.data)]) ∧
    (chat db0 now freshId user req (.ok r)).1.durable.conversations =
      db0.conversations ∧
    findConversation (chat db0 now freshId user req (.ok r)).1.durable
      (resolveSessionId req.session_id freshId) = some c ∧
    (chat db0 now freshId user req (.ok r)).2 = .ok r.data := by
  rw [chat_ok_eq db0 now freshId user req r c h]
  have hconv : (committedTurn db0 now user req r c.id).conversations =
      db0.conversations := by
    unfold committedTurn
    rw [conversations_foldl_insertToolUsage]
    rfl
  have hmsg : (committedTurn db0 now user req r c.id).messages =
      db0.messages ++
        [{ id := db0.nextId
           conversation_id := c.id
           role := "user"
           content := req.message
           tools_used := []
           metadata := userMeta user
           created_at := now },
         { id := db0.nextId + 1
           conversation_id := c.id
           role := "assistant"
           content := r.data
           tools_used := r.tools
           metadata := [("search_type", .str req.search_type)]
           created_at := now }] := by
    unfold committedTurn
    rw [messages_foldl_insertToolUsage]
    simp [DB.insertMessage]
  refine ⟨?_, hconv, ?_, rfl⟩
  · rw [hmsg]
    simp
  · unfold findConversation
    rw [hconv]
    exact h

/-- C8 witness: concrete successful turn on session s1; the durable state
holds the user and assistant messages while the conversation row is
unchanged. -/
theorem chat_persisted_two_messages_no_activity_update_witness :
    findConversation db1 (resolveSessionId reqS1.session_id "fresh-9") =
      some convRow1 ∧
    (chat db1 42 "fresh-9" none reqS1 (.ok agentR1)).1.durable.messages.map
        (fun m => (m.role, m.content)) =
      [("user", "hello"), ("assistant", "hi")] := by
  have h : findConversation db1 (resolveSessionId reqS1.session_id "fresh-9") =
      some convRow1 := by decide
  refine ⟨h, ?_⟩
  have h2 := (chat_persisted_two_messages_no_activity_update db1 42 "fresh-9"
    none reqS1 agentR1 convRow1 h).1
  simpa [db1, reqS1, agentR1] using h2

end Lumos
